import Mathlib

/-!
Shallow embedding of the Banner signaling server (src/server.js): the room/session
state machine and message-relay engine. JavaScript `Map`s are modelled as association
lists that preserve insertion order (`Map.set` on an existing key updates the entry in
place; on a fresh key it appends; `Map.delete` removes the entry), matching JS Map
iteration semantics. The per-connection closure variable `userData` (server.js:103-108)
is aliased by the `userSockets` registry entry; since `userSockets.delete` (server.js:402)
kills the registry entry but not the closure, the model keeps the closure state in
`conn` (one entry per live connection, removed only on disconnect) and the registry as
the ordered list `registry` of socket ids still present in `userSockets`.
Socket.IO broadcast groups (`socket.join` / `socket.leave` / `socket.to` / `io.to`)
are modelled by the membership list `sio` of (socketId, groupName) pairs; outbound
emissions are recorded as a list of `Emit` directives in program order, and
`recipients` resolves a broadcast directive to the connections it reaches.
Timestamps (`Date.now()`) are an explicit `now : Nat` supplied with each event.
-/

namespace BannerServer

/-- Association-list lookup, modelling JS `Map.get` (first entry wins). -/
def alGet {α : Type} : List (String × α) → String → Option α
  | [], _ => none
  | p :: rest, k => if p.1 == k then some p.2 else alGet rest k

/-- Association-list update, modelling JS `Map.set`: replaces the existing entry in
place (keeping its position), or appends a fresh entry at the end. -/
def alSet {α : Type} : List (String × α) → String → α → List (String × α)
  | [], k, v => [(k, v)]
  | p :: rest, k, v => if p.1 == k then (k, v) :: rest else p :: alSet rest k v

/-- Association-list removal, modelling JS `Map.delete`. -/
def alDel {α : Type} : List (String × α) → String → List (String × α)
  | [], _ => []
  | p :: rest, k => if p.1 == k then rest else p :: alDel rest k

/-- JS `x || 1` on a `Map.get` result, as used at server.js:344 (`undefined` and `0`
are falsy). -/
def jsOr1 : Option Nat → Nat
  | none => 1
  | some n => if n = 0 then 1 else n

/-- Normalization applied to nicknames and room codes, `s.toUpperCase().trim()`
(server.js:126-127), computed on the character list (uppercase every character, then
drop leading and trailing whitespace). -/
def clean (s : String) : String :=
  String.mk ((((s.data.map Char.toUpper).dropWhile Char.isWhitespace).reverse.dropWhile
    Char.isWhitespace).reverse)

/-- Member record stored in `room.users` (server.js:157-161). -/
structure Member where
  socketId : String
  nickname : String
  joinTime : Nat
deriving Repr, DecidableEq

/-- Room aggregate stored in `activeRooms` (server.js:135-140). -/
structure Room where
  code : String
  users : List (String × Member)
  created : Nat
  lastActivity : Nat
deriving Repr, DecidableEq

/-- Per-connection closure state `userData` (server.js:103-108), plus the closure's
captured `clientIp` (server.js:84). Also the value type of the `userSockets` registry,
whose entries alias this object. -/
structure UserData where
  socketId : String
  nickname : Option String
  roomCode : Option String
  joinTime : Nat
  ip : String
deriving Repr, DecidableEq

/-- The server's whole mutable state: `activeRooms` (server.js:28), the key set of
`userSockets` in insertion order (server.js:29; values alias `conn`), the live
per-connection closures, the per-address rate-limit counters `userConnections`
(server.js:32), and the Socket.IO broadcast-group membership pairs. -/
structure ServerState where
  activeRooms : List (String × Room)
  registry : List String
  conn : List (String × UserData)
  userConnections : List (String × Nat)
  sio : List (String × String)
deriving Repr, DecidableEq

/-- State of the process at startup: every map empty. -/
def initState : ServerState := ⟨[], [], [], [], []⟩

/-- Destination of an outbound emission: `Target.sock id` is delivery to one given
connection (`socket.emit` on that socket, or `io.to(socketId)`), `roomExcept r s` is
`socket.to(r)` from socket `s` (everyone in group `r` except `s`), `roomAll r` is
`io.to(r)` (everyone in group `r`). -/
inductive Target where
  | sock (id : String)
  | roomExcept (room sender : String)
  | roomAll (room : String)
deriving Repr, DecidableEq

/-- Entry of a `users-updated` payload (server.js:176-180, 375-378); the join-time
roster carries an `isMe` flag, the leave-time roster does not. -/
structure RosterEntry where
  socketId : String
  nickname : String
  isMe : Option Bool
deriving Repr, DecidableEq

/-- Outbound event directives, in the order the handler emits them. -/
inductive Emit where
  | errorMsg (tgt : Target) (message : String)
  | joinError (tgt : Target) (message : String)
  | roomJoined (tgt : Target) (roomCode nickname : String) (userCount : Nat)
  | usersUpdated (tgt : Target) (users : List RosterEntry) (userCount : Nat)
  | userJoined (tgt : Target) (socketId nickname : String)
  | userLeft (tgt : Target) (socketId : String) (nickname : Option String)
  | chatMessage (tgt : Target) (sender : Option String) (content : String) (timestamp : Nat)
  | privateChatInvite (tgt : Target) (fromUser toUser roomCode : String)
deriving Repr, DecidableEq

/-- Connections a directive reaches: `sock id` is direct delivery to that connection
(the transport contract of `io.to(socketId)` / `socket.emit`); the group forms are
resolved against the broadcast-group membership. -/
def recipients (st : ServerState) : Target → List String
  | Target.sock id => [id]
  | Target.roomAll r => (st.sio.filter (fun p => p.2 == r)).map (fun p => p.1)
  | Target.roomExcept r ex =>
      (st.sio.filter (fun p => p.2 == r && p.1 != ex)).map (fun p => p.1)

/-- Per-address connection ceiling (server.js:33). -/
def MAX_CONNECTIONS_PER_IP : Nat := 10

/-- Admission on `io.on('connection')` (server.js:83-111): reject with an `error`
event when the address's open-connection count is at or over the ceiling (server.js
87-93; the handler returns before the counter increment, the `userData` creation, the
`userSockets.set` and any `socket.on` registration); otherwise increment the counter,
create the closure state and register it. A Socket.IO socket is always a member of the
broadcast group named by its own id. -/
def onConnection (now : Nat) (st : ServerState) (socketId clientIp : String) :
    ServerState × List Emit :=
  let connectionCount := (alGet st.userConnections clientIp).getD 0
  if MAX_CONNECTIONS_PER_IP ≤ connectionCount then
    (st, [Emit.errorMsg (Target.sock socketId) "Too many connections from this IP"])
  else
    let ud : UserData := ⟨socketId, none, none, now, clientIp⟩
    ({ st with
        userConnections := alSet st.userConnections clientIp (connectionCount + 1),
        registry := if st.registry.contains socketId then st.registry
          else st.registry ++ [socketId],
        conn := alSet st.conn socketId ud,
        sio := st.sio ++ [(socketId, socketId)] }, [])

/-- The `join-room` handler (server.js:114-206). Only runs for a connection whose
handlers were registered (admitted, not yet disconnected). Steps in source order:
validate the raw fields (server.js:119-123); normalize (126-127); overwrite the
session's nickname and room fields (130-131); create the room if absent (134-142);
scan for a nickname collision on a different connection and fail (147-154); insert
the member record (157-161), bump `lastActivity` (163), join the broadcast group
(166); emit `room-joined` to self (169), `users-updated` to the whole group (183) and
`user-joined` to the others (189). -/
def joinRoom (now : Nat) (st : ServerState) (socketId roomCode nickname : String) :
    ServerState × List Emit :=
  match alGet st.conn socketId with
  | none => (st, [])
  | some ud =>
    if roomCode = "" ∨ nickname = "" ∨ 50 < roomCode.length ∨ 16 < nickname.length then
      (st, [Emit.joinError (Target.sock socketId) "Invalid room code or nickname"])
    else
      let cleanNickname := clean nickname
      let cleanRoomCode := clean roomCode
      let ud1 := { ud with nickname := some cleanNickname, roomCode := some cleanRoomCode }
      let st1 := { st with conn := alSet st.conn socketId ud1 }
      let st2 :=
        if (alGet st1.activeRooms cleanRoomCode).isSome then st1
        else { st1 with activeRooms := (alSet st1.activeRooms cleanRoomCode
          ⟨cleanRoomCode, [], now, now⟩) }
      let room := (alGet st2.activeRooms cleanRoomCode).getD ⟨cleanRoomCode, [], now, now⟩
      if room.users.any (fun p => p.2.nickname == cleanNickname && p.1 != socketId) then
        (st2, [Emit.joinError (Target.sock socketId) "Nickname already taken in this room"])
      else
        let room1 : Room :=
          { room with users := alSet room.users socketId ⟨socketId, cleanNickname, now⟩,
                      lastActivity := now }
        let st3 :=
          { st2 with activeRooms := alSet st2.activeRooms cleanRoomCode room1,
                     sio := if st2.sio.contains (socketId, cleanRoomCode) then st2.sio
                       else st2.sio ++ [(socketId, cleanRoomCode)] }
        let roomUsers := room1.users.map (fun p =>
          RosterEntry.mk p.2.socketId p.2.nickname (some (p.2.socketId == socketId)))
        (st3,
          [Emit.roomJoined (Target.sock socketId) cleanRoomCode cleanNickname
              room1.users.length,
           Emit.usersUpdated (Target.roomAll cleanRoomCode) roomUsers room1.users.length,
           Emit.userJoined (Target.roomExcept cleanRoomCode socketId) socketId
              cleanNickname])

/-- The `chat-message` handler (server.js:237-276): drop unless the session's stored
room code is truthy and strictly equal (`!==`, verbatim — no normalization of the
supplied code) to the supplied `roomCode` (241-243); drop empty or oversized messages
(246-248); drop when the room is missing or does not contain the sender (250-253);
otherwise relay to the others in the broadcast group (264) and bump `lastActivity`
(265). -/
def chatMessage (now : Nat) (st : ServerState) (socketId message roomCode : String) :
    ServerState × List Emit :=
  match alGet st.conn socketId with
  | none => (st, [])
  | some ud =>
    match ud.roomCode with
    | none => (st, [])
    | some rc0 =>
      if rc0 = "" then (st, [])
      else if rc0 ≠ roomCode then (st, [])
      else if message = "" ∨ 500 < message.length then (st, [])
      else
        match alGet st.activeRooms roomCode with
        | none => (st, [])
        | some room =>
          if room.users.any (fun p => p.1 == socketId) then
            ({ st with activeRooms := (alSet st.activeRooms roomCode
                { room with lastActivity := now }) },
             [Emit.chatMessage (Target.roomExcept roomCode socketId) ud.nickname
                message now])
          else (st, [])

/-- The `private-chat-invite` handler (server.js:279-332): drop when any field is
falsy (283-286); scan the whole `userSockets` registry in insertion order for the
first session whose nickname is strictly equal (`===`) to `toUser` (293-299); when
found, deliver the invitation to that connection via `io.to(targetSocketId)`
(301-307); when not found, only log (317-326) — no event to the inviter. No state is
mutated either way. -/
def privateChatInvite (st : ServerState) (socketId fromUser toUser roomCode : String) :
    ServerState × List Emit :=
  match alGet st.conn socketId with
  | none => (st, [])
  | some _ =>
    if fromUser = "" ∨ toUser = "" ∨ roomCode = "" then (st, [])
    else
      match st.registry.find? (fun id =>
          ((alGet st.conn id).bind (fun u => u.nickname)) == some toUser) with
      | some targetSocketId =>
          (st, [Emit.privateChatInvite (Target.sock targetSocketId) fromUser toUser
            roomCode])
      | none => (st, [])

/-- `handleUserLeave` (server.js:358-404): when the session's room field is truthy
(359) and the room exists, remove the member entry (363), bump `lastActivity` (364),
emit `user-left` to the others (367) then `users-updated` to the whole group (380),
delete the room when it became empty (386-389), and leave the broadcast group (398);
then, unconditionally, delete the registry entry (402) and clear the session's room
field (403). -/
def handleUserLeave (now : Nat) (st : ServerState) (socketId : String) :
    ServerState × List Emit :=
  match alGet st.conn socketId with
  | none => (st, [])
  | some ud =>
    let res :=
      match ud.roomCode with
      | none => (st, ([] : List Emit))
      | some rc =>
        if rc = "" then (st, [])
        else
          let inner :=
            match alGet st.activeRooms rc with
            | none => (st, ([] : List Emit))
            | some room =>
              let room1 : Room :=
                { room with users := alDel room.users socketId, lastActivity := now }
              let e1 := Emit.userLeft (Target.roomExcept rc socketId) socketId
                ud.nickname
              let roomUsers := room1.users.map (fun (p : String × Member) =>
                RosterEntry.mk p.2.socketId p.2.nickname none)
              let e2 := Emit.usersUpdated (Target.roomAll rc) roomUsers
                room1.users.length
              let stRooms :=
                if room1.users.length = 0 then
                  { st with activeRooms := alDel st.activeRooms rc }
                else
                  { st with activeRooms := alSet st.activeRooms rc room1 }
              (stRooms, [e1, e2])
          ({ inner.1 with sio := (inner.1.sio.filter
              (fun p => !(p.1 == socketId && p.2 == rc))) },
           inner.2)
    ({ res.1 with
        registry := res.1.registry.filter (fun k => k != socketId),
        conn := alSet res.1.conn socketId { ud with roomCode := none } },
     res.2)

/-- The `disconnect` handler (server.js:340-356): runs only for an admitted
connection (a rejected connection returned before any `socket.on` registration);
performs `handleUserLeave`, then decrements the address's counter — `get || 1`,
deleting the entry when the count was at most one (344-349). The closure state dies
with the connection, and Socket.IO drops the socket from every broadcast group. -/
def onDisconnect (now : Nat) (st : ServerState) (socketId : String) :
    ServerState × List Emit :=
  match alGet st.conn socketId with
  | none => (st, [])
  | some ud =>
    let r1 := handleUserLeave now st socketId
    let st1 := r1.1
    let connectionCount := jsOr1 (alGet st1.userConnections ud.ip)
    let uc :=
      if connectionCount ≤ 1 then alDel st1.userConnections ud.ip
      else alSet st1.userConnections ud.ip (connectionCount - 1)
    ({ st1 with
        userConnections := uc,
        conn := alDel st1.conn socketId,
        sio := st1.sio.filter (fun p => p.1 != socketId) },
     r1.2)

/-- Inbound events handled by the single-threaded event loop. -/
inductive Event where
  | connect (socketId ip : String)
  | joinRoomEv (socketId roomCode nickname : String)
  | chatMessageEv (socketId message roomCode : String)
  | privateInviteEv (socketId fromUser toUser roomCode : String)
  | leaveRoomEv (socketId : String)
  | disconnectEv (socketId : String)
deriving Repr, DecidableEq

/-- One handled event. Events for a connection that was never admitted (or has
disconnected) are no-ops — no handlers are registered for it; each handler checks
this through its `alGet st.conn` match. -/
def step (now : Nat) (st : ServerState) : Event → ServerState × List Emit
  | Event.connect sid ip => onConnection now st sid ip
  | Event.joinRoomEv sid rc nick => joinRoom now st sid rc nick
  | Event.chatMessageEv sid msg rc => chatMessage now st sid msg rc
  | Event.privateInviteEv sid f t rc => privateChatInvite st sid f t rc
  | Event.leaveRoomEv sid => handleUserLeave now st sid
  | Event.disconnectEv sid => onDisconnect now st sid

/-- State reached by handling a list of timestamped events from startup. -/
def run (tr : List (Nat × Event)) : ServerState :=
  tr.foldl (fun st p => (step p.1 st p.2).1) initState

/-- Current open-connection count recorded for an address (absent entry counts 0,
as in `userConnections.get(clientIp) || 0`, server.js:87). -/
def getCount (st : ServerState) (ip : String) : Nat :=
  (alGet st.userConnections ip).getD 0

/-- Nickname currently stored in the Session (closure state) of a connection. -/
def nickOf (st : ServerState) (id : String) : Option String :=
  (alGet st.conn id).bind (fun u => u.nickname)

/-- Room code currently stored in the Session (closure state) of a connection. -/
def roomOf (st : ServerState) (id : String) : Option String :=
  (alGet st.conn id).bind (fun u => u.roomCode)

/-- Sessions of the Session Registry whose room field equals the given code. -/
def sessionsInRoom (st : ServerState) (code : String) : List String :=
  st.registry.filter (fun id => roomOf st id == some code)

/-- The two inclusions of the spec's membership invariant for one room: every Member
entry is a registry Session pointing at this room code, and conversely. -/
def roomConsistent (st : ServerState) (code : String) (room : Room) : Bool :=
  room.users.all (fun p => (sessionsInRoom st code).contains p.1) &&
  (sessionsInRoom st code).all (fun id => room.users.any (fun p => p.1 == id))

/-- The spec's membership invariant over the whole Room Directory. -/
def membershipInvariant (st : ServerState) : Bool :=
  st.activeRooms.all (fun p => roomConsistent st p.1 p.2)

/-- The (connection id, nickname) pairs of a room's membership, in insertion order;
empty when the room does not exist. -/
def roomPairs (st : ServerState) (code : String) : List (String × String) :=
  match alGet st.activeRooms code with
  | some room => room.users.map (fun p => (p.1, p.2.nickname))
  | none => []

/-- Whether an emission list contains a `join-error` event. -/
def emitsJoinError (es : List Emit) : Bool :=
  es.any (fun e => match e with | Emit.joinError _ _ => true | _ => false)

/-- Classification of the outbound events in the spec's vocabulary: success ack
(`room-joined`), full roster (`users-updated`), membership delta (`user-joined` /
`user-left`), join failure, admission error, private invitation, chat relay. -/
inductive EmitKind where
  | ack | roster | delta | failure | adminError | invite | chat
deriving Repr, DecidableEq

/-- Kind of one outbound event. -/
def kindOf : Emit → EmitKind
  | Emit.roomJoined _ _ _ _ => EmitKind.ack
  | Emit.usersUpdated _ _ _ => EmitKind.roster
  | Emit.userJoined _ _ _ => EmitKind.delta
  | Emit.userLeft _ _ _ => EmitKind.delta
  | Emit.joinError _ _ => EmitKind.failure
  | Emit.errorMsg _ _ => EmitKind.adminError
  | Emit.privateChatInvite _ _ _ _ => EmitKind.invite
  | Emit.chatMessage _ _ _ _ => EmitKind.chat

/-! Concrete event traces used to exhibit reachable states. -/

/-- Connection A joins ROOMA, then joins ROOMB without leaving. -/
def traceRejoin : List (Nat × Event) :=
  [(0, Event.connect "A" "IP"), (1, Event.joinRoomEv "A" "ROOMA" "ALICE"),
   (2, Event.joinRoomEv "A" "ROOMB" "ALICE")]

/-- Connection A occupies ROOM as ALICE; connection B is admitted but has joined
nothing yet. -/
def traceCollision : List (Nat × Event) :=
  [(0, Event.connect "A" "IP1"), (1, Event.joinRoomEv "A" "ROOM" "ALICE"),
   (2, Event.connect "B" "IP2")]

/-- A single admitted connection that never joined a room. -/
def traceConnectOnly : List (Nat × Event) :=
  [(0, Event.connect "A" "IP")]

/-- Connection B joins R1 and then R2 (staying in R1's broadcast group); connection A
joins R1. -/
def traceStaleGroup : List (Nat × Event) :=
  [(0, Event.connect "A" "IP1"), (1, Event.connect "B" "IP2"),
   (2, Event.joinRoomEv "B" "R1" "BOB"), (3, Event.joinRoomEv "B" "R2" "BOB"),
   (4, Event.joinRoomEv "A" "R1" "ALICE")]

/-- Connections A and B admitted; A occupies room R. -/
def traceJoinOrder : List (Nat × Event) :=
  [(0, Event.connect "A" "IP"), (1, Event.connect "B" "IP"),
   (2, Event.joinRoomEv "A" "R" "ALICE")]

/-! Helper lemmas about the association-list operations. -/

theorem alGet_alSet_self {α : Type} (l : List (String × α)) (k : String) (v : α) :
    alGet (alSet l k v) k = some v := by
  induction l with
  | nil => simp [alSet, alGet]
  | cons p rest ih =>
    by_cases hk : p.1 == k
    · simp [alSet, hk, alGet]
    · simp [alSet, hk, alGet, ih]

theorem alSet_eq_of_alGet {α : Type} (l : List (String × α)) (k : String) (v : α)
    (h : alGet l k = some v) : alSet l k v = l := by
  induction l with
  | nil => simp [alGet] at h
  | cons p rest ih =>
    by_cases hk : p.1 == k
    · simp only [alGet, hk, if_pos, Option.some.injEq] at h
      have hk' : p.1 = k := by simpa using hk
      simp only [alSet, hk, if_pos]
      cases p
      simp_all
    · simp only [alGet, hk, if_neg, Bool.false_eq_true, ite_false] at h
      simp [alSet, hk, ih h]

/-! Claim theorems. -/

/-- C1: the claimed invariant — every room's membership map coincides with the set of
registry Sessions whose room field equals the room's code, at every point between
handled events — fails on a reachable state: after connection A joins ROOMA and then
joins ROOMB (a handled-event boundary), room ROOMA still holds a Member entry for A
while A's Session points at ROOMB, so the stale entry violates both the claimed
coincidence and its parenthetical "no stale Member entry" consequence. -/
theorem membership_invariant_violated_on_rejoin :
    membershipInvariant (run traceRejoin) = false ∧
    ((alGet (run traceRejoin).activeRooms "ROOMA").map
      (fun room => room.users.any (fun p => p.1 == "A"))) = some true ∧
    roomOf (run traceRejoin) "A" = some "ROOMB" := by decide

/-- C2 counterexample: a join request by connection B for ROOM with nickname ALICE,
colliding with connection A's Member entry, emits the join-failure event but does not
leave the state exactly as before: B's Session room field changes from none to ROOM
(and its nickname to ALICE), refuting "mutates nothing". -/
theorem join_collision_mutates_counterexample :
    (joinRoom 3 (run traceCollision) "B" "ROOM" "ALICE").2 =
      [Emit.joinError (Target.sock "B") "Nickname already taken in this room"] ∧
    (joinRoom 3 (run traceCollision) "B" "ROOM" "ALICE").1 ≠ run traceCollision ∧
    roomOf (run traceCollision) "B" = none ∧
    roomOf (joinRoom 3 (run traceCollision) "B" "ROOM" "ALICE").1 "B" = some "ROOM" := by
  decide

/-- C2 (amended): on a nickname collision with a different connection, the handler
emits exactly the join-failure event, and the Room Directory (a collision presupposes
the room already exists, so no creation happens), the Session Registry key set, the
rate-limit counters and the broadcast groups are all unchanged — but the requesting
Session's nickname and room field have already been overwritten with the normalized
requested values. -/
theorem join_collision_state_effect (now : Nat) (st : ServerState) (sid rc nick : String)
    (ud : UserData) (room : Room)
    (hconn : alGet st.conn sid = some ud)
    (hrcne : ¬ rc = "") (hnickne : ¬ nick = "")
    (hrcLen : rc.length ≤ 50) (hnickLen : nick.length ≤ 16)
    (hroom : alGet st.activeRooms (clean rc) = some room)
    (hcol : room.users.any (fun p => p.2.nickname == clean nick && p.1 != sid) = true) :
    joinRoom now st sid rc nick =
      ({ st with conn := (alSet st.conn sid
          { ud with nickname := some (clean nick), roomCode := some (clean rc) }) },
       [Emit.joinError (Target.sock sid) "Nickname already taken in this room"]) := by
  have hval : ¬(rc = "" ∨ nick = "" ∨ 50 < rc.length ∨ 16 < nick.length) := by
    push_neg
    refine ⟨hrcne, hnickne, ?_, ?_⟩ <;> omega
  simp only [joinRoom, hconn, hval, ite_false, if_false, if_neg]
  simp [hroom, hcol]

/-- C2 witness: the amended statement applied to the concrete collision scenario. -/
theorem join_collision_state_effect_witness :
    joinRoom 3 (run traceCollision) "B" "ROOM" "ALICE" =
      ({ run traceCollision with conn := (alSet (run traceCollision).conn "B"
          { (⟨"B", none, none, 2, "IP2"⟩ : UserData) with
              nickname := some (clean "ALICE"), roomCode := some (clean "ROOM") }) },
       [Emit.joinError (Target.sock "B") "Nickname already taken in this room"]) :=
  join_collision_state_effect 3 (run traceCollision) "B" "ROOM" "ALICE"
    ⟨"B", none, none, 2, "IP2"⟩
    ⟨"ROOM", [("A", ⟨"A", "ALICE", 1⟩)], 1, 1⟩
    (by decide) (by decide) (by decide) (by decide) (by decide) (by decide) (by decide)

/-- C3 counterexample: an explicit leave-room by an admitted connection whose Session
has no current room is not a no-op — the Session's entry is removed from the Session
Registry even though the connection has not disconnected, refuting "the Session
remains in the Session Registry" and "destroyed only on disconnect". -/
theorem leave_noroom_removes_session_counterexample :
    (run traceConnectOnly).registry = ["A"] ∧
    roomOf (run traceConnectOnly) "A" = none ∧
    (handleUserLeave 1 (run traceConnectOnly) "A").1.registry = [] ∧
    (handleUserLeave 1 (run traceConnectOnly) "A").1 ≠ run traceConnectOnly := by decide

/-- C3 (amended): a leave operation on a connection whose Session has no current room
emits nothing and leaves the Room Directory, the rate-limit counters, the broadcast
groups, and every Session's fields unchanged — except that the Session's entry is
removed from the Session Registry: the registry entry is removed on any leave,
explicit or disconnect, not only on disconnect. -/
theorem leave_noroom_effect (now : Nat) (st : ServerState) (sid : String)
    (ud : UserData)
    (hconn : alGet st.conn sid = some ud) (hrc : ud.roomCode = none) :
    handleUserLeave now st sid =
      ({ st with registry := st.registry.filter (fun k => k != sid) }, []) := by
  have hud : { ud with roomCode := none } = ud := by cases ud; simp_all
  simp only [handleUserLeave, hconn, hrc]
  simp [hud, alSet_eq_of_alGet st.conn sid ud hconn]

/-- Characterization of the chat-message handler: either it drops (state unchanged,
nothing emitted), or the sender's Session points at exactly the supplied room code,
the room exists, and the handler bumps the room's `lastActivity` and emits one relay
directive to everyone in the room's broadcast group except the sender. -/
theorem chatMessage_spec (now : Nat) (st : ServerState) (sid msg rc : String) :
    chatMessage now st sid msg rc = (st, []) ∨
    ∃ ud room, alGet st.conn sid = some ud ∧ ud.roomCode = some rc ∧
      alGet st.activeRooms rc = some room ∧
      chatMessage now st sid msg rc =
        ({ st with activeRooms := (alSet st.activeRooms rc
            { room with lastActivity := now }) },
         [Emit.chatMessage (Target.roomExcept rc sid) ud.nickname msg now]) := by
  unfold chatMessage
  split
  next => exact Or.inl rfl
  next ud hud =>
    split
    next => exact Or.inl rfl
    next rc0 hrc0 =>
      split
      next h1 => exact Or.inl rfl
      next h1 =>
        split
        next h2 => exact Or.inl rfl
        next h2 =>
          split
          next h3 => exact Or.inl rfl
          next h3 =>
            split
            next => exact Or.inl rfl
            next room hroom =>
              split
              next hmem =>
                have hrceq : rc0 = rc := not_ne_iff.mp h2
                subst hrceq
                exact Or.inr ⟨ud, room, hud, hrc0, hroom, rfl⟩
              next hmem => exact Or.inl rfl

/-- C4 counterexample: in a reachable state where connection B joined R1 and then
joined R2 (its Session room field is R2), a chat message successfully relayed by A in
R1 is delivered to B, a connection whose Session room field differs from the target
room — refuting the second conjunct of the claim. -/
theorem chat_stale_group_counterexample :
    (chatMessage 5 (run traceStaleGroup) "A" "HI" "R1").2 =
      [Emit.chatMessage (Target.roomExcept "R1" "A") (some "ALICE") "HI" 5] ∧
    recipients (chatMessage 5 (run traceStaleGroup) "A" "HI" "R1").1
      (Target.roomExcept "R1" "A") = ["B"] ∧
    roomOf (run traceStaleGroup) "B" = some "R2" := by decide

/-- C4 (amended): every event emitted by a successfully relayed chat message is the
single relay directive addressed to the target room's broadcast group excluding the
sender; it is never delivered to the sender's own connection, and every recipient is
a member of the transport broadcast group for the target room — which may include a
connection whose Session room field differs, when it joined that room earlier and
later joined a different room without leaving. -/
theorem chat_relay_recipients (now : Nat) (st : ServerState) (sid msg rc : String)
    (e : Emit) (he : e ∈ (chatMessage now st sid msg rc).2) :
    (∃ snd, e = Emit.chatMessage (Target.roomExcept rc sid) snd msg now) ∧
    (chatMessage now st sid msg rc).1.sio = st.sio ∧
    ∀ r ∈ recipients (chatMessage now st sid msg rc).1 (Target.roomExcept rc sid),
      r ≠ sid ∧ (r, rc) ∈ st.sio := by
  rcases chatMessage_spec now st sid msg rc with h | ⟨ud, room, hc, hrc, hroom, h⟩
  · rw [h] at he; simp at he
  · rw [h] at he ⊢
    simp only [List.mem_singleton] at he
    refine ⟨⟨ud.nickname, he⟩, rfl, ?_⟩
    intro r hr
    simp only [recipients] at hr
    rcases List.mem_map.mp hr with ⟨p, hp, hpr⟩
    rcases List.mem_filter.mp hp with ⟨hpmem, hcond⟩
    simp only [Bool.and_eq_true, bne_iff_ne, beq_iff_eq] at hcond
    obtain ⟨hp2, hp1⟩ := hcond
    subst hpr
    refine ⟨hp1, ?_⟩
    have hpe : (p.1, rc) = p := by
      cases p; simp_all
    rw [hpe]
    exact hpmem

/-- C4 witness: the amended statement applied to the concrete relay in the
stale-group scenario. -/
theorem chat_relay_recipients_witness :
    (∃ snd, (Emit.chatMessage (Target.roomExcept "R1" "A") (some "ALICE") "HI" 5) =
        Emit.chatMessage (Target.roomExcept "R1" "A") snd "HI" 5) ∧
    (chatMessage 5 (run traceStaleGroup) "A" "HI" "R1").1.sio =
      (run traceStaleGroup).sio ∧
    ∀ r ∈ recipients (chatMessage 5 (run traceStaleGroup) "A" "HI" "R1").1
        (Target.roomExcept "R1" "A"),
      r ≠ "A" ∧ (r, "R1") ∈ (run traceStaleGroup).sio :=
  chat_relay_recipients 5 (run traceStaleGroup) "A" "HI" "R1"
    (Emit.chatMessage (Target.roomExcept "R1" "A") (some "ALICE") "HI" 5) (by decide)

/-- C3 witness: the amended statement applied to the concrete one-connection
scenario. -/
theorem leave_noroom_effect_witness :
    handleUserLeave 1 (run traceConnectOnly) "A" =
      ({ run traceConnectOnly with
          registry := (run traceConnectOnly).registry.filter (fun k => k != "A") },
       []) :=
  leave_noroom_effect 1 (run traceConnectOnly) "A" ⟨"A", none, none, 0, "IP"⟩
    (by decide) (by decide)

/-- Ten admitted connections from the same address. -/
def traceTenConnections : List (Nat × Event) :=
  [(0, Event.connect "S1" "IP"), (0, Event.connect "S2" "IP"),
   (0, Event.connect "S3" "IP"), (0, Event.connect "S4" "IP"),
   (0, Event.connect "S5" "IP"), (0, Event.connect "S6" "IP"),
   (0, Event.connect "S7" "IP"), (0, Event.connect "S8" "IP"),
   (0, Event.connect "S9" "IP"), (0, Event.connect "S10" "IP")]

/-- The leave path never touches the per-address rate-limit counters. -/
theorem handleUserLeave_userConnections (now : Nat) (st : ServerState) (sid : String) :
    (handleUserLeave now st sid).1.userConnections = st.userConnections := by
  unfold handleUserLeave
  split
  next => rfl
  next ud hud =>
    dsimp only
    split
    next => rfl
    next rc hrc =>
      split
      next => rfl
      next h =>
        split
        next => rfl
        next room hroom =>
          split <;> rfl

/-- C5: a connection attempt is rejected (an error event is emitted and the attempt
is not admitted) exactly when the address's current open-connection count is at least
10; in a state where the count is 10 the next attempt from that address is rejected,
and after any one of the address's admitted connections disconnects the counter drops
to 9 and a new attempt from that address is accepted and registered. -/
theorem admission_rate_limit (now now2 now3 : Nat) (st : ServerState)
    (sid sid2 sid' ip : String) (ud : UserData)
    (hconn : alGet st.conn sid' = some ud) (hip : ud.ip = ip)
    (hcount : getCount st ip = 10) :
    (onConnection now st sid ip).2 ≠ [] ∧
    (∀ (st2 : ServerState) (s i : String),
       (onConnection now2 st2 s i).2 ≠ [] ↔ 10 ≤ getCount st2 i) ∧
    getCount (onDisconnect now st sid').1 ip = 9 ∧
    (onConnection now3 (onDisconnect now st sid').1 sid2 ip).2 = [] ∧
    alGet (onConnection now3 (onDisconnect now st sid').1 sid2 ip).1.conn sid2 ≠
      none := by
  have hget : alGet st.userConnections ip = some 10 := by
    unfold getCount at hcount
    cases hx : alGet st.userConnections ip with
    | none => rw [hx] at hcount; simp at hcount
    | some n => rw [hx] at hcount; simp at hcount; rw [hcount]
  have hcount9 : getCount (onDisconnect now st sid').1 ip = 9 := by
    unfold onDisconnect
    rw [hconn]
    dsimp only
    rw [hip, handleUserLeave_userConnections, hget]
    have hjs : jsOr1 (some 10) = 10 := by decide
    rw [hjs]
    norm_num
    unfold getCount
    dsimp only
    rw [alGet_alSet_self]
    rfl
  refine ⟨?_, ?_, hcount9, ?_, ?_⟩
  · unfold onConnection getCount at *
    rw [hget]
    simp [MAX_CONNECTIONS_PER_IP]
  · intro st2 s i
    unfold onConnection
    by_cases h : MAX_CONNECTIONS_PER_IP ≤ (alGet st2.userConnections i).getD 0
    · rw [if_pos h]
      simpa [getCount, MAX_CONNECTIONS_PER_IP] using h
    · rw [if_neg h]
      simp only [MAX_CONNECTIONS_PER_IP] at h
      simpa [getCount, MAX_CONNECTIONS_PER_IP] using h
  · unfold onConnection
    have : ¬ (MAX_CONNECTIONS_PER_IP ≤
        (alGet (onDisconnect now st sid').1.userConnections ip).getD 0) := by
      have := hcount9
      unfold getCount at this
      rw [this]
      decide
    rw [if_neg this]
  · unfold onConnection
    have hx : ¬ (MAX_CONNECTIONS_PER_IP ≤
        (alGet (onDisconnect now st sid').1.userConnections ip).getD 0) := by
      have := hcount9
      unfold getCount at this
      rw [this]
      decide
    rw [if_neg hx]
    dsimp only
    rw [alGet_alSet_self]
    simp

/-- C5 witness: the rate-limit statement applied to a concrete state holding ten
connections from one address. -/
theorem admission_rate_limit_witness :
    (onConnection 1 (run traceTenConnections) "S11" "IP").2 ≠ [] ∧
    (∀ (st2 : ServerState) (s i : String),
       (onConnection 2 st2 s i).2 ≠ [] ↔ 10 ≤ getCount st2 i) ∧
    getCount (onDisconnect 1 (run traceTenConnections) "S1").1 "IP" = 9 ∧
    (onConnection 3 (onDisconnect 1 (run traceTenConnections) "S1").1 "S12" "IP").2 =
      [] ∧
    alGet (onConnection 3 (onDisconnect 1 (run traceTenConnections) "S1").1 "S12"
      "IP").1.conn "S12" ≠ none :=
  admission_rate_limit 1 2 3 (run traceTenConnections) "S11" "S12" "S1" "IP"
    ⟨"S1", none, none, 0, "IP"⟩ (by decide) (by decide) (by decide)

/-- C6 counterexample: a successful join by connection B into A's room emits the
success ack first, then the full roster to the whole room, then the join delta to the
others — so the roster precedes the delta, contradicting the claimed order (ack, then
delta-to-others, then roster-to-all). -/
theorem join_order_counterexample :
    (joinRoom 3 (run traceJoinOrder) "B" "R" "BOB").2.map kindOf =
      [EmitKind.ack, EmitKind.roster, EmitKind.delta] ∧
    [EmitKind.ack, EmitKind.roster, EmitKind.delta] ≠
      [EmitKind.ack, EmitKind.delta, EmitKind.roster] := by decide

/-- C6 (amended): all outbound events of a membership change are emitted before the
handler returns, and in this order: a join emits either nothing (unregistered
connection), or a single failure event, or exactly ack-to-self, then roster-to-all,
then delta-to-others; a leave emits either nothing or exactly delta-to-others, then
roster-to-all (and never an ack). -/
theorem emission_order (now : Nat) (st : ServerState) (sid rc nick : String) :
    ((joinRoom now st sid rc nick).2 = [] ∨
     (∃ m, (joinRoom now st sid rc nick).2 = [Emit.joinError (Target.sock sid) m]) ∨
     (joinRoom now st sid rc nick).2.map kindOf =
       [EmitKind.ack, EmitKind.roster, EmitKind.delta]) ∧
    ((handleUserLeave now st sid).2 = [] ∨
     (handleUserLeave now st sid).2.map kindOf =
       [EmitKind.delta, EmitKind.roster]) := by
  constructor
  · unfold joinRoom
    split
    next => exact Or.inl rfl
    next ud hud =>
      split
      next h => exact Or.inr (Or.inl ⟨_, rfl⟩)
      next h =>
        dsimp only
        split
        all_goals
          split
          next => exact Or.inr (Or.inl ⟨_, rfl⟩)
          next => exact Or.inr (Or.inr rfl)
  · unfold handleUserLeave
    split
    next => exact Or.inl rfl
    next ud hud =>
      dsimp only
      split
      next => exact Or.inl rfl
      next rc0 hrc0 =>
        split
        next => exact Or.inl rfl
        next =>
          split
          next => exact Or.inl rfl
          next room hroom => exact Or.inr rfl

/-- Connection A admitted and occupying room LOBBY as ALICE. -/
def traceAliceInRoom : List (Nat × Event) :=
  [(0, Event.connect "A" "IP"), (1, Event.joinRoomEv "A" "LOBBY" "ALICE")]

/-- Connections A and B admitted; B occupies ROOM as BOB. -/
def traceInviteTarget : List (Nat × Event) :=
  [(0, Event.connect "A" "IPA"), (1, Event.connect "B" "IPB"),
   (2, Event.joinRoomEv "B" "ROOM" "BOB")]

/-- Updating a member entry with an equal nickname leaves the (connection, nickname)
pairs of the membership unchanged. -/
theorem map_pair_alSet (l : List (String × Member)) (k : String) (m m0 : Member)
    (hg : alGet l k = some m0) (hn : m0.nickname = m.nickname) :
    (alSet l k m).map (fun p => (p.1, p.2.nickname)) =
      l.map (fun p => (p.1, p.2.nickname)) := by
  induction l with
  | nil => simp [alGet] at hg
  | cons p rest ih =>
    by_cases hk : p.1 == k
    · simp only [alGet, hk, if_pos, Option.some.injEq] at hg
      have hk' : p.1 = k := by simpa using hk
      simp only [alSet, hk, if_pos, List.map_cons]
      rw [← hk', ← hn, hg]
    · simp only [alGet, hk, Bool.false_eq_true, ite_false] at hg
      simp [alSet, hk, ih hg]

/-- C7: a second join request for the same room with the same nickname from a
connection that is already the room's only holder of that nickname does not fail with
a nickname collision (the scan excludes the connection's own entry) and leaves the
room's membership set of (connection, nickname) pairs unchanged. -/
theorem rejoin_idempotent (now : Nat) (st : ServerState) (sid rc nick : String)
    (ud : UserData) (room : Room) (m : Member)
    (hconn : alGet st.conn sid = some ud)
    (hrcne : ¬ rc = "") (hnickne : ¬ nick = "")
    (hrcLen : rc.length ≤ 50) (hnickLen : nick.length ≤ 16)
    (hroom : alGet st.activeRooms (clean rc) = some room)
    (hmem : alGet room.users sid = some m)
    (hnick : m.nickname = clean nick)
    (huniq : ∀ p ∈ room.users, p.2.nickname = clean nick → p.1 = sid) :
    emitsJoinError (joinRoom now st sid rc nick).2 = false ∧
    roomPairs (joinRoom now st sid rc nick).1 (clean rc) =
      roomPairs st (clean rc) := by
  have hval : ¬(rc = "" ∨ nick = "" ∨ 50 < rc.length ∨ 16 < nick.length) := by
    push_neg
    refine ⟨hrcne, hnickne, ?_, ?_⟩ <;> omega
  have hscan : room.users.any
      (fun p => p.2.nickname == clean nick && p.1 != sid) = false := by
    rw [List.any_eq_false]
    intro p hp
    simp only [Bool.and_eq_true, beq_iff_eq, bne_iff_ne, not_and]
    intro h1
    exact not_not.mpr (huniq p hp h1)
  simp only [joinRoom, hconn, hval, ite_false, if_false, if_neg, hroom,
    Option.isSome_some, ite_true, Option.getD_some, hscan, Bool.false_eq_true]
  constructor
  · rfl
  · unfold roomPairs
    rw [alGet_alSet_self, hroom]
    exact map_pair_alSet room.users sid ⟨sid, clean nick, now⟩ m hmem hnick

/-- C7 witness: the idempotence statement applied to ALICE re-joining LOBBY. -/
theorem rejoin_idempotent_witness :
    emitsJoinError (joinRoom 2 (run traceAliceInRoom) "A" "LOBBY" "ALICE").2 = false ∧
    roomPairs (joinRoom 2 (run traceAliceInRoom) "A" "LOBBY" "ALICE").1
      (clean "LOBBY") = roomPairs (run traceAliceInRoom) (clean "LOBBY") :=
  rejoin_idempotent 2 (run traceAliceInRoom) "A" "LOBBY" "ALICE"
    ⟨"A", some "ALICE", some "LOBBY", 0, "IP"⟩
    ⟨"LOBBY", [("A", ⟨"A", "ALICE", 1⟩)], 1, 1⟩
    ⟨"A", "ALICE", 1⟩
    (by decide) (by decide) (by decide) (by decide) (by decide) (by decide)
    (by decide) (by decide) (by decide)

/-- C8: for a private invite with non-empty fields from a registered connection, the
state is never mutated; when some Session in the registry (the scan is registry-wide,
not room-scoped) has a nickname that is strictly equal to toUser, the invitation
event {fromUser, toUser, roomCode} is emitted once, addressed to exactly that one
connection; when no Session matches, nothing at all is emitted — in particular no
error event reaches the inviter. -/
theorem private_invite_behavior (st : ServerState) (sid fromUser toUser rc : String)
    (ud : UserData) (hconn : alGet st.conn sid = some ud)
    (hf : ¬ fromUser = "") (ht : ¬ toUser = "") (hrc : ¬ rc = "") :
    (privateChatInvite st sid fromUser toUser rc).1 = st ∧
    ((∃ id ∈ st.registry, nickOf st id = some toUser) →
      ∃ tid ∈ st.registry, nickOf st tid = some toUser ∧
        (privateChatInvite st sid fromUser toUser rc).2 =
          [Emit.privateChatInvite (Target.sock tid) fromUser toUser rc] ∧
        recipients st (Target.sock tid) = [tid]) ∧
    ((∀ id ∈ st.registry, ¬ nickOf st id = some toUser) →
      (privateChatInvite st sid fromUser toUser rc).2 = []) := by
  have hval : ¬(fromUser = "" ∨ toUser = "" ∨ rc = "") := by
    push_neg
    exact ⟨hf, ht, hrc⟩
  refine ⟨?_, ?_, ?_⟩
  · unfold privateChatInvite
    rw [hconn]
    dsimp only
    rw [if_neg hval]
    split <;> rfl
  · rintro ⟨id, hid, hnick⟩
    have hsome : (st.registry.find? (fun i =>
        ((alGet st.conn i).bind (fun u => u.nickname)) == some toUser)).isSome := by
      rw [List.find?_isSome]
      exact ⟨id, hid, by simpa [nickOf] using hnick⟩
    obtain ⟨tid, htid⟩ := Option.isSome_iff_exists.mp hsome
    refine ⟨tid, List.mem_of_find?_eq_some htid, ?_, ?_, rfl⟩
    · have := List.find?_some htid
      simpa [nickOf] using this
    · unfold privateChatInvite
      rw [hconn]
      dsimp only
      rw [if_neg hval, htid]
  · intro hall
    have hnone : st.registry.find? (fun i =>
        ((alGet st.conn i).bind (fun u => u.nickname)) == some toUser) = none := by
      rw [List.find?_eq_none]
      intro i hi
      simpa [nickOf] using hall i hi
    unfold privateChatInvite
    rw [hconn]
    dsimp only
    rw [if_neg hval, hnone]

/-- C8 witness: the invite statement applied to A inviting BOB, who occupies ROOM. -/
theorem private_invite_behavior_witness :
    (privateChatInvite (run traceInviteTarget) "A" "ALICE" "BOB" "ROOM").1 =
      run traceInviteTarget ∧
    ((∃ id ∈ (run traceInviteTarget).registry,
        nickOf (run traceInviteTarget) id = some "BOB") →
      ∃ tid ∈ (run traceInviteTarget).registry,
        nickOf (run traceInviteTarget) tid = some "BOB" ∧
        (privateChatInvite (run traceInviteTarget) "A" "ALICE" "BOB" "ROOM").2 =
          [Emit.privateChatInvite (Target.sock tid) "ALICE" "BOB" "ROOM"] ∧
        recipients (run traceInviteTarget) (Target.sock tid) = [tid]) ∧
    ((∀ id ∈ (run traceInviteTarget).registry,
        ¬ nickOf (run traceInviteTarget) id = some "BOB") →
      (privateChatInvite (run traceInviteTarget) "A" "ALICE" "BOB" "ROOM").2 = []) :=
  private_invite_behavior (run traceInviteTarget) "A" "ALICE" "BOB" "ROOM"
    ⟨"A", none, none, 0, "IPA"⟩ (by decide) (by decide) (by decide) (by decide)

/-- C9: the chat-message handler compares the supplied room code verbatim against the
Session's stored normalized code, so a chat message whose supplied code differs from
the stored code (for instance only by letter case or surrounding whitespace, with the
normalized forms equal) is silently dropped — the state is unchanged and nothing is
emitted — even though the sender is a member of the room under the normalized code. -/
theorem chat_roomcode_verbatim (now : Nat) (st : ServerState)
    (sid msg supplied stored : String) (ud : UserData) (room : Room)
    (hconn : alGet st.conn sid = some ud)
    (hstored : ud.roomCode = some stored)
    (hne : ¬ supplied = stored)
    (hnorm : clean supplied = stored)
    (hroom : alGet st.activeRooms stored = some room)
    (hmember : room.users.any (fun p => p.1 == sid) = true) :
    chatMessage now st sid msg supplied = (st, []) := by
  unfold chatMessage
  rw [hconn]
  dsimp only
  rw [hstored]
  dsimp only
  by_cases h0 : stored = ""
  · rw [if_pos h0]
  · rw [if_neg h0]
    have hx : stored ≠ supplied := fun h => hne h.symm
    rw [if_pos hx]

/-- C9 witness: ALICE is joined to LOBBY; a chat message supplying the room code in
lower case is dropped with no state change and no emission. -/
theorem chat_roomcode_verbatim_witness :
    chatMessage 2 (run traceAliceInRoom) "A" "HI" "lobby" =
      (run traceAliceInRoom, []) :=
  chat_roomcode_verbatim 2 (run traceAliceInRoom) "A" "HI" "lobby" "LOBBY"
    ⟨"A", some "ALICE", some "LOBBY", 0, "IP"⟩
    ⟨"LOBBY", [("A", ⟨"A", "ALICE", 1⟩)], 1, 1⟩
    (by decide) (by decide) (by decide) (by decide) (by decide) (by decide)

/-- C10: a connection attempt rejected by the admission guard leaves the whole state
unchanged (counter not incremented, no Session added) and emits only the error event;
and since the rejected socket got no event handlers, every subsequent event from it —
disconnect in particular, but also leave, join, chat and invite — is a complete
no-op, so its disconnect does not decrement the counter. -/
theorem rejected_connection_frame (now now2 : Nat) (st : ServerState)
    (sid ip : String)
    (hcap : 10 ≤ getCount st ip) (hfresh : alGet st.conn sid = none) :
    onConnection now st sid ip =
      (st, [Emit.errorMsg (Target.sock sid) "Too many connections from this IP"]) ∧
    onDisconnect now2 st sid = (st, []) ∧
    handleUserLeave now2 st sid = (st, []) ∧
    (∀ rc nick, joinRoom now2 st sid rc nick = (st, [])) ∧
    (∀ msg rc, chatMessage now2 st sid msg rc = (st, [])) ∧
    (∀ f t rc, privateChatInvite st sid f t rc = (st, [])) := by
  refine ⟨?_, ?_, ?_, ?_, ?_, ?_⟩
  · unfold onConnection
    rw [if_pos (by simpa [getCount, MAX_CONNECTIONS_PER_IP] using hcap)]
  · unfold onDisconnect
    rw [hfresh]
  · unfold handleUserLeave
    rw [hfresh]
  · intro rc nick
    unfold joinRoom
    rw [hfresh]
  · intro msg rc
    unfold chatMessage
    rw [hfresh]
  · intro f t rc
    unfold privateChatInvite
    rw [hfresh]

/-- C10 witness: the rejection frame statement applied to an 11th attempt "S11"
against the concrete ten-connection state. -/
theorem rejected_connection_frame_witness :
    onConnection 1 (run traceTenConnections) "S11" "IP" =
      (run traceTenConnections,
       [Emit.errorMsg (Target.sock "S11") "Too many connections from this IP"]) ∧
    onDisconnect 2 (run traceTenConnections) "S11" = (run traceTenConnections, []) ∧
    handleUserLeave 2 (run traceTenConnections) "S11" =
      (run traceTenConnections, []) ∧
    (∀ rc nick, joinRoom 2 (run traceTenConnections) "S11" rc nick =
      (run traceTenConnections, [])) ∧
    (∀ msg rc, chatMessage 2 (run traceTenConnections) "S11" msg rc =
      (run traceTenConnections, [])) ∧
    (∀ f t rc, privateChatInvite (run traceTenConnections) "S11" f t rc =
      (run traceTenConnections, [])) :=
  rejected_connection_frame 1 2 (run traceTenConnections) "S11" "IP"
    (by decide) (by decide)

end BannerServer
